import Mathlib

/-!
Verification of the image-classification HTTP service in `src/index.js`.

The development shallowly embeds the JavaScript source: buffers are lists of
bytes, JavaScript numbers are rationals (`ℚ`), tensors are shape data plus a
total indexing function, fallible operations return `Except`, and the two
external pixel decoders (`pngjs`, `jpeg-js`) are parameters of the functions
that call them.  Every definition mirrors a specific place in `src/index.js`,
cited in its doc comment.
-/

deriving instance DecidableEq for Except

namespace MlCloud

/-- An uploaded file's raw bytes (`req.file.buffer`). -/
abbrev Buffer := List Nat

/-- JavaScript indexing `buf[i]` on a Node `Buffer`: yields the byte when
`i` is in range and `undefined` (here `none`) otherwise; it never throws. -/
def jsIndex (buf : Buffer) (i : Nat) : Option Nat := buf.get? i

/-- The PNG-signature test of `src/index.js` line 53:
`imageBuffer[0] === 137 && imageBuffer[1] === 80 && imageBuffer[2] === 78 && imageBuffer[3] === 71`.
A comparison of `undefined` with a number is `false`, which the `Option`
equality models. -/
def isPngHeader (buf : Buffer) : Bool :=
  (jsIndex buf 0 == some 137) && (jsIndex buf 1 == some 80) &&
    (jsIndex buf 2 == some 78) && (jsIndex buf 3 == some 71)

/-- The result of an external pixel decoder (`pngjs.sync.read` or
`jpeg.decode`): width, height and the flat interleaved sample array. -/
structure DecodedRaw where
  width : Nat
  height : Nat
  data : List ℚ

/-- A rank-3 tensor: shape `[height, width, channels]` with a total
indexing function (out-of-range reads are irrelevant to the results). -/
structure Tensor3 where
  height : Nat
  width : Nat
  channels : Nat
  data : Nat → Nat → Nat → ℚ

/-- `tf.tensor3d(data, [h, w, c])`: row-major interleaved layout. -/
def tensor3dOfList (l : List ℚ) (h w c : Nat) : Tensor3 :=
  ⟨h, w, c, fun y x k => l.getD (y * (w * c) + x * c + k) 0⟩

/-- The JavaScript expression `data.length / (width * height)` of
`src/index.js` line 59: real (floating-point) division, embedded exactly as
rational division.  `0 / 0` is JavaScript `NaN` and `n / 0` is `Infinity`;
both make `tf.tensor3d` fail, which `decodeJpegBranch` accounts for. -/
def jpegChannelCount (totalSamples w h : Nat) : ℚ :=
  (totalSamples : ℚ) / ((w : ℚ) * (h : ℚ))

/-- The channel count as the specification words it: integer division
`totalSamples / (width*height)`.  Kept separate so it can be compared with
the source's real division `jpegChannelCount`. -/
def jpegChannelCountSpec (totalSamples w h : Nat) : Nat :=
  totalSamples / (w * h)

/-- PNG branch of `src/index.js` lines 54-56: decode, then
`tf.tensor3d(data, [height, width, 4], 'int32')`.  `tf.tensor3d` throws when
the flat data length does not match the declared shape. -/
def decodePngBranch (pngDecode : Buffer → Except String DecodedRaw)
    (buf : Buffer) : Except String Tensor3 :=
  match pngDecode buf with
  | .error e => .error e
  | .ok p =>
      if p.data.length = p.height * p.width * 4 then
        .ok (tensor3dOfList p.data p.height p.width 4)
      else .error "tensor shape mismatch"

/-- JPEG branch of `src/index.js` lines 58-59: decode, then
`tf.tensor3d(data, [height, width, data.length / (width * height)], 'int32')`.
The computed channel dimension is a JavaScript number; `tf.tensor3d`
succeeds exactly when it is a (positive-denominator) integer and the flat
length matches, i.e. when `width * height` is nonzero and divides
`data.length`. -/
def decodeJpegBranch (jpegDecode : Buffer → Except String DecodedRaw)
    (buf : Buffer) : Except String Tensor3 :=
  match jpegDecode buf with
  | .error e => .error e
  | .ok j =>
      if 0 < j.width * j.height ∧ (j.width * j.height) ∣ j.data.length then
        .ok (tensor3dOfList j.data j.height j.width
          (j.data.length / (j.width * j.height)))
      else .error "tensor shape mismatch"

/-- The format dispatch of `src/index.js` lines 53-60. -/
def decodeImage (pngDecode jpegDecode : Buffer → Except String DecodedRaw)
    (buf : Buffer) : Except String Tensor3 :=
  if isPngHeader buf then decodePngBranch pngDecode buf
  else decodeJpegBranch jpegDecode buf

/-- `tf.slice(inputTensor, [0, 0, 0], [-1, -1, 3])` from `src/index.js`
line 64: full height and width, first three channels. -/
def tfSlice3 (t : Tensor3) : Tensor3 :=
  ⟨t.height, t.width, 3, t.data⟩

/-- Source coordinate of an output pixel under the `tf.image.resizeBilinear`
defaults (`alignCorners = false`, `halfPixelCenters = false`):
`i * inSize / outSize`. -/
def srcCoord (outSize inSize i : Nat) : ℚ :=
  (i : ℚ) * (inSize : ℚ) / (outSize : ℚ)

/-- Lower interpolation index: the floor of the source coordinate. -/
def lowIdx (q : ℚ) : Nat := ⌊q⌋.toNat

/-- Upper interpolation index: the ceiling of the source coordinate,
clamped to the last valid row/column. -/
def highIdx (last : Nat) (q : ℚ) : Nat := min last ⌈q⌉.toNat

/-- Linear interpolation `a + (b - a) * u`, as the tfjs kernel computes it. -/
def lerp (a b u : ℚ) : ℚ := a + (b - a) * u

/-- One output sample of bilinear resizing: interpolate the four corner
samples, in x first and then in y. -/
def bilinearAt (t : Tensor3) (srcY srcX : ℚ) (c : Nat) : ℚ :=
  lerp
    (lerp (t.data (lowIdx srcY) (lowIdx srcX) c)
      (t.data (lowIdx srcY) (highIdx (t.width - 1) srcX) c)
      (srcX - (lowIdx srcX : ℚ)))
    (lerp (t.data (highIdx (t.height - 1) srcY) (lowIdx srcX) c)
      (t.data (highIdx (t.height - 1) srcY) (highIdx (t.width - 1) srcX) c)
      (srcX - (lowIdx srcX : ℚ)))
    (srcY - (lowIdx srcY : ℚ))

/-- `tf.image.resizeBilinear(inputTensor, [224, 224])` from `src/index.js`
line 68, with the library defaults `alignCorners = false`,
`halfPixelCenters = false`: source coordinate `y * inH / outH`, corners at
the floor and the ceiling clamped to the last row/column, linear
interpolation in x then in y. -/
def resizeBilinear (t : Tensor3) (outH outW : Nat) : Tensor3 :=
  { height := outH, width := outW, channels := t.channels,
    data := fun y x c =>
      bilinearAt t (srcCoord outH t.height y) (srcCoord outW t.width x) c }

/-- A rank-4 tensor (batch, height, width, channels). -/
structure Tensor4 where
  batch : Nat
  height : Nat
  width : Nat
  channels : Nat
  data : Nat → Nat → Nat → Nat → ℚ

/-- `resizedImage.expandDims(0)` from `src/index.js` line 71. -/
def expandDims0 (t : Tensor3) : Tensor4 :=
  ⟨1, t.height, t.width, t.channels, fun _ y x c => t.data y x c⟩

/-- `.toFloat().div(255)` from `src/index.js` line 71 (the embedding's
samples are already rationals, so the cast is the identity). -/
def toFloatDiv255 (t : Tensor4) : Tensor4 :=
  { t with data := fun b y x c => t.data b y x c / 255 }

/-- The preprocessing of `src/index.js` lines 62-71: drop the alpha channel
when there are four channels, resize to 224×224 bilinearly, add the batch
dimension, convert to float and divide by 255. -/
def preprocess (t : Tensor3) : Tensor4 :=
  let t1 := if t.channels = 4 then tfSlice3 t else t
  let t2 := resizeBilinear t1 224 224
  toFloatDiv255 (expandDims0 t2)

/-- The threshold of `src/index.js` lines 75-76:
`predictions[0] > 0.5 ? 'Cancer' : 'Non-cancer'` (the JavaScript literal
`0.5` is exactly the rational `1/2`). -/
def classify (p : ℚ) : String :=
  if p > 1 / 2 then "Cancer" else "Non-cancer"

/-- A loaded model: from a preprocessed batch tensor to the first element of
the prediction buffer (`predictions[0]`); inference itself may fail. -/
abbrev Model := Tensor4 → Except String ℚ

/-- The fixed wrapper message thrown by the `catch` of `src/index.js`
line 79: `throw new Error('Error processing image for prediction.')`. -/
def processingErrorMsg : String := "Error processing image for prediction."

/-- The `try` block of `predict` (`src/index.js` lines 49-76): decode,
preprocess, invoke the model and threshold.  `loadedModel` is
`Option Model`: `none` while the variable is still `undefined` (before
`loadModel` has assigned it), in which case `loadedModel.predict(tensor)`
throws a `TypeError` — an error propagating out of this body. -/
def predictBody (pngDecode jpegDecode : Buffer → Except String DecodedRaw)
    (loadedModel : Option Model) (buf : Buffer) : Except String String :=
  match decodeImage pngDecode jpegDecode buf with
  | .error e => .error e
  | .ok t =>
      match loadedModel with
      | none => .error "Cannot read properties of undefined"
      | some m =>
          match m (preprocess t) with
          | .error e => .error e
          | .ok p => .ok (classify p)

/-- The `try` / `catch` of `predict` (`src/index.js` lines 48-81): whatever
error escapes the body is replaced by the fixed `processingErrorMsg`. -/
def predict (pngDecode jpegDecode : Buffer → Except String DecodedRaw)
    (loadedModel : Option Model) (buf : Buffer) : Except String String :=
  match predictBody pngDecode jpegDecode loadedModel buf with
  | .ok label => .ok label
  | .error _ => .error processingErrorMsg

/-- The JSON response envelope the service produces (`res.status(..)` plus
the serialized body fields; `id`, `suggestion` and `createdAt` are
request-local metadata and not modelled). -/
structure JsonResponse where
  statusCode : Nat
  status : String
  message : String
  error : Option String
  result : Option String
  deriving DecidableEq, Repr

/-- Metadata and content of one uploaded file, as multer hands it to the
filter and the route (`file.mimetype`, `file.originalname`, its byte size,
and `file.buffer`). -/
structure UploadFile where
  mimetype : String
  originalname : String
  size : Nat
  buffer : Buffer
  deriving DecidableEq, Repr

/-- JavaScript `String.prototype.startsWith`: the receiver's characters
begin with the argument's characters. -/
def jsStartsWith (s pre : String) : Bool :=
  pre.toList.isPrefixOf s.toList

/-- Lower-case an ASCII letter, identity elsewhere. -/
def asciiLower (c : Char) : Char :=
  if 'A' ≤ c ∧ c ≤ 'Z' then Char.ofNat (c.toNat + 32) else c

/-- JavaScript `String.prototype.toLowerCase`, restricted to ASCII (file
extensions are ASCII). -/
def jsToLower (s : String) : String :=
  String.mk (s.toList.map asciiLower)

/-- Node's `path.extname` for names without path separators: the suffix
starting at the last dot, or the empty string when there is no dot or the
only dot is the leading character (`src/index.js` line 23 applies it to
`file.originalname`). -/
def extname (name : String) : String :=
  let cs := name.toList
  match cs.reverse.findIdx? (· = '.') with
  | none => ""
  | some i =>
      let pos := cs.length - 1 - i
      if pos = 0 then "" else String.mk (cs.drop pos)

/-- The multer `fileFilter` of `src/index.js` lines 18-29: reject a
mimetype that does not start with `image/`, then reject an extension whose
lower-casing is not `.jpg`, `.jpeg` or `.png`. -/
def fileFilter (f : UploadFile) : Except String Unit :=
  if ¬ jsStartsWith f.mimetype "image/" then
    .error "Only image files are allowed!"
  else if ¬ (jsToLower (extname f.originalname) ∈ [".jpg", ".jpeg", ".png"]) then
    .error "Only JPG, JPEG, and PNG files are allowed!"
  else .ok ()

/-- `upload.single('image')` with `limits: { fileSize: 1000000 }` from
`src/index.js` lines 16-30: a missing file passes through (the route checks
`req.file` itself); a present file must pass `fileFilter` and the 1,000,000
byte size limit (multer rejects an oversized file with the message
`File too large`). -/
def uploadSingle (file : Option UploadFile) :
    Except String (Option UploadFile) :=
  match file with
  | none => .ok none
  | some f =>
      match fileFilter f with
      | .error e => .error e
      | .ok _ =>
          if f.size > 1000000 then .error "File too large"
          else .ok (some f)

/-- The error-handling middleware of `src/index.js` lines 129-135:
`res.status(400).json({ status: 'fail', message: err.message })`. -/
def errorMiddleware (errMsg : String) : JsonResponse :=
  ⟨400, "fail", errMsg, none, none⟩

/-- The `POST /predict` route handler of `src/index.js` lines 88-126, after
multer has run: missing file → 400 `No file uploaded`; otherwise run
`predict` on `req.file.buffer`; success → 200 envelope; caught error →
500 `{ status: 'fail', message: 'Terjadi kesalahan dalam melakukan
prediksi', error: err.message }`. -/
def predictRoute (pngDecode jpegDecode : Buffer → Except String DecodedRaw)
    (loadedModel : Option Model) (file : Option UploadFile) : JsonResponse :=
  match file with
  | none => ⟨400, "fail", "No file uploaded", none, none⟩
  | some f =>
      match predict pngDecode jpegDecode loadedModel f.buffer with
      | .ok result =>
          ⟨200, "success", "Prediction completed successfully", none,
            some result⟩
      | .error msg =>
          ⟨500, "fail", "Terjadi kesalahan dalam melakukan prediksi",
            some msg, none⟩

/-- One full `POST /predict` request: multer first; a multer error goes to
the error-handling middleware (HTTP 400), otherwise the route handler
runs. -/
def handleRequest (pngDecode jpegDecode : Buffer → Except String DecodedRaw)
    (loadedModel : Option Model) (file : Option UploadFile) : JsonResponse :=
  match uploadSingle file with
  | .error e => errorMiddleware e
  | .ok f => predictRoute pngDecode jpegDecode loadedModel f

/-- Outcome of `loadModel` (`src/index.js` lines 36-45): either the handle
is stored, or `process.exit(1)` terminates the process. -/
inductive LoadOutcome
  | loaded
  | processExit (code : Nat)
  deriving DecidableEq, Repr

/-- `loadModel` of `src/index.js` lines 36-45: `tf.loadGraphModel(MODEL_URL)`
either yields a model or throws (fetch or parse failure); the `catch` calls
`process.exit(1)` — no retry, no degraded mode. -/
def loadModel (fetchResult : Except String Unit) : LoadOutcome :=
  match fetchResult with
  | .ok _ => .loaded
  | .error _ => .processExit 1

/-- Observable startup events of the process. -/
inductive StartupEvent
  | serverListening
  | modelLoadInvoked
  | modelLoadCompleted
  deriving DecidableEq, Repr

/-- The startup sequence of `src/index.js` lines 138-141:
`app.listen(PORT, async () => { await loadModel(); ... })`.  Node invokes
the listening callback once the server has begun accepting connections, so
the trace is: the server is listening, then `loadModel` is invoked (its one
and only invocation), then it completes. -/
def startupTrace : List StartupEvent :=
  [.serverListening, .modelLoadInvoked, .modelLoadCompleted]

/-! ### Concrete inputs used to instantiate the theorems -/

/-- A 1×1 RGBA decoded image (4 samples). -/
def pngDemo : DecodedRaw := ⟨1, 1, [10, 20, 30, 40]⟩

/-- A 1×1 RGB decoded image (3 samples). -/
def jpegDemo : DecodedRaw := ⟨1, 1, [5, 6, 7]⟩

/-- A stub PNG decoder: always the 1×1 RGBA image. -/
def pngStub : Buffer → Except String DecodedRaw :=
  fun _ => .ok pngDemo

/-- A stub JPEG decoder: always the 1×1 RGB image. -/
def jpegStub : Buffer → Except String DecodedRaw :=
  fun _ => .ok jpegDemo

/-- A JPEG decoder that fails, carrying the underlying decode message. -/
def failingJpeg : Buffer → Except String DecodedRaw :=
  fun _ => .error "jpeg decode failed"

/-- A stub loaded model returning probability `7/10`. -/
def stubModel : Model := fun _ => .ok (7 / 10)

/-- A buffer that starts with the PNG signature. -/
def pngSigBuf : Buffer := [137, 80, 78, 71]

/-- A well-formed JPEG upload (single non-PNG byte as content). -/
def jpegFile : UploadFile := ⟨"image/jpeg", "a.jpg", 3, [0]⟩

/-- A well-formed PNG upload whose content is the PNG signature. -/
def pngFile : UploadFile := ⟨"image/png", "a.png", 4, [137, 80, 78, 71]⟩

/-- An upload with a non-image MIME type. -/
def txtFile : UploadFile := ⟨"text/plain", "a.txt", 3, []⟩

/-- A 2×2 constant RGBA tensor with 8-bit sample value 100. -/
def constTensor : Tensor3 := ⟨2, 2, 4, fun _ _ _ => 100⟩

/-- Sample value 100 lies in the 8-bit range. -/
theorem const100_in_byte_range : (0 : ℚ) ≤ 100 ∧ (100 : ℚ) ≤ 255 := by
  norm_num

/-! ### Claims -/

/-- Claim C1: for every probability `p` the classifier labels the result
`Cancer` iff `p > 0.5`; `p` exactly `0.5` is classified `Non-cancer`
(strict greater-than), and the only possible labels are `Cancer` and
`Non-cancer`. -/
theorem C1_classify_threshold (p : ℚ) :
    (classify p = "Cancer" ↔ p > 1 / 2) ∧
    classify (1 / 2) = "Non-cancer" ∧
    (classify p = "Cancer" ∨ classify p = "Non-cancer") := by
  refine ⟨?_, ?_, ?_⟩
  · by_cases h : p > 1 / 2 <;> simp [classify, h]
  · simp [classify]
  · by_cases h : p > 1 / 2
    · exact Or.inl (by simp only [classify]; rw [if_pos h])
    · exact Or.inr (by simp only [classify]; rw [if_neg h])

/-- Claim C2 counterexample: in the startup sequence of
`app.listen(PORT, async () => { await loadModel(); ... })` the server is
accepting connections at trace index 0, strictly before the model load
completes at index 2 — so the load does not complete before the server
begins accepting connections. -/
theorem C2_load_completes_after_listen :
    startupTrace.indexOf StartupEvent.serverListening = 0 ∧
    startupTrace.indexOf StartupEvent.modelLoadCompleted = 2 ∧
    ¬ startupTrace.indexOf StartupEvent.modelLoadCompleted <
        startupTrace.indexOf StartupEvent.serverListening := by
  decide

/-- Claim C2 amended: the model loader is invoked exactly once per process,
from the listening callback — i.e. only after the server has begun
accepting connections — and a fetch or parse failure terminates the
process with exit code 1 (no retry, no degraded mode). -/
theorem C2_load_once_fatal_on_failure :
    startupTrace.count StartupEvent.modelLoadInvoked = 1 ∧
    startupTrace.indexOf StartupEvent.serverListening <
      startupTrace.indexOf StartupEvent.modelLoadInvoked ∧
    (∀ e : String, loadModel (.error e) = .processExit 1) ∧
    (∀ e : String, loadModel (.error e) ≠ .loaded) := by
  refine ⟨by decide, by decide, fun e => rfl, fun e => by simp [loadModel]⟩

/-- Claim C8: a `POST /predict` request that passes upload validation but
carries no file in the `image` field is answered with exactly HTTP 400
`{ status: 'fail', message: 'No file uploaded' }`, independently of the
decoders and the model — no decoding or inference is attempted. -/
theorem C8_no_file_uploaded
    (pngDecode jpegDecode : Buffer → Except String DecodedRaw)
    (loadedModel : Option Model) :
    uploadSingle none = .ok none ∧
    handleRequest pngDecode jpegDecode loadedModel none =
      ⟨400, "fail", "No file uploaded", none, none⟩ ∧
    (∀ png2 jpeg2 lm2, handleRequest pngDecode jpegDecode loadedModel none =
      handleRequest png2 jpeg2 lm2 none) :=
  ⟨rfl, rfl, fun _ _ _ => rfl⟩

/-- Claim C10: for every buffer shorter than four bytes, indexing past the
end yields `undefined` (`none`), the PNG-signature comparison evaluates to
`false` without failing, and the buffer is dispatched to the JPEG decode
path. -/
theorem C10_short_buffer_jpeg_path (buf : Buffer) (h : buf.length < 4) :
    jsIndex buf 3 = none ∧
    isPngHeader buf = false ∧
    ∀ pngDecode jpegDecode, decodeImage pngDecode jpegDecode buf =
      decodeJpegBranch jpegDecode buf := by
  have h3 : jsIndex buf 3 = none := by
    simp only [jsIndex, List.get?_eq_none]
    omega
  have hh : isPngHeader buf = false := by
    simp [isPngHeader, h3]
  exact ⟨h3, hh, fun png jpeg => by simp [decodeImage, hh]⟩

/-- Witness for C10 at the empty buffer with the stub decoders. -/
theorem C10_short_buffer_jpeg_path_witness :
    jsIndex ([] : Buffer) 3 = none ∧
    isPngHeader ([] : Buffer) = false ∧
    decodeImage pngStub jpegStub ([] : Buffer) =
      decodeJpegBranch jpegStub ([] : Buffer) :=
  ⟨(C10_short_buffer_jpeg_path [] (by decide)).1,
    (C10_short_buffer_jpeg_path [] (by decide)).2.1,
    (C10_short_buffer_jpeg_path [] (by decide)).2.2 pngStub jpegStub⟩

/-- Claim C3 counterexample: with a JPEG decoder failing with message
`jpeg decode failed`, the 500 response's `error` field carries the fixed
wrapper message `Error processing image for prediction.`, which differs
from the triggering decode error's message — the underlying cause is not
surfaced. -/
theorem C3_error_field_is_wrapper_not_cause :
    predict pngStub failingJpeg (some stubModel) jpegFile.buffer =
      .error processingErrorMsg ∧
    handleRequest pngStub failingJpeg (some stubModel) (some jpegFile) =
      ⟨500, "fail", "Terjadi kesalahan dalam melakukan prediksi",
        some processingErrorMsg, none⟩ ∧
    processingErrorMsg ≠ "jpeg decode failed" :=
  ⟨rfl, by decide, by decide⟩

/-- Claim C3 amended: whenever decoding or inference fails during
`POST /predict`, the response is HTTP 500 with status `fail`, the generic
message, and an `error` field carrying the fixed wrapper message
`Error processing image for prediction.` thrown by `predict`'s catch —
not the triggering decode or inference error's own message. -/
theorem C3_failure_response
    (pngDecode jpegDecode : Buffer → Except String DecodedRaw)
    (loadedModel : Option Model) (f : UploadFile) (e : String)
    (hup : uploadSingle (some f) = .ok (some f))
    (hfail : predict pngDecode jpegDecode loadedModel f.buffer = .error e) :
    e = processingErrorMsg ∧
    handleRequest pngDecode jpegDecode loadedModel (some f) =
      ⟨500, "fail", "Terjadi kesalahan dalam melakukan prediksi",
        some processingErrorMsg, none⟩ := by
  have he : e = processingErrorMsg := by
    unfold predict at hfail
    cases hb : predictBody pngDecode jpegDecode loadedModel f.buffer with
    | ok l => simp [hb] at hfail
    | error e2 => rw [hb] at hfail; exact (Except.error.inj hfail).symm
  subst he
  exact ⟨rfl, by simp [handleRequest, hup, predictRoute, hfail]⟩

/-- Witness for the amended C3 at a concrete failing JPEG decode. -/
theorem C3_failure_response_witness :
    processingErrorMsg = processingErrorMsg ∧
    handleRequest pngStub failingJpeg (some stubModel) (some jpegFile) =
      ⟨500, "fail", "Terjadi kesalahan dalam melakukan prediksi",
        some processingErrorMsg, none⟩ :=
  C3_failure_response pngStub failingJpeg (some stubModel) jpegFile
    processingErrorMsg (by decide) (by decide)

/-- Claim C9: a valid-image request arriving after the server starts
listening but before the model finishes loading finds `loadedModel` still
`undefined`; the exception is caught inside `predict` and re-thrown as the
processing error, and the client receives HTTP 500 with status `fail` —
the handler returns normally (no crash) and the request is answered,
not queued and not given 503. -/
theorem C9_request_before_model_ready
    (pngDecode jpegDecode : Buffer → Except String DecodedRaw)
    (f : UploadFile) (hup : uploadSingle (some f) = .ok (some f)) :
    predict pngDecode jpegDecode none f.buffer = .error processingErrorMsg ∧
    handleRequest pngDecode jpegDecode none (some f) =
      ⟨500, "fail", "Terjadi kesalahan dalam melakukan prediksi",
        some processingErrorMsg, none⟩ ∧
    (handleRequest pngDecode jpegDecode none (some f)).statusCode ≠ 503 := by
  have hp : predict pngDecode jpegDecode none f.buffer =
      .error processingErrorMsg := by
    unfold predict predictBody
    cases hd : decodeImage pngDecode jpegDecode f.buffer <;> simp
  have hr : handleRequest pngDecode jpegDecode none (some f) =
      ⟨500, "fail", "Terjadi kesalahan dalam melakukan prediksi",
        some processingErrorMsg, none⟩ := by
    simp [handleRequest, hup, predictRoute, hp]
  exact ⟨hp, hr, by rw [hr]; simp⟩

/-- Witness for C9: a valid PNG upload against the not-yet-loaded model. -/
theorem C9_request_before_model_ready_witness :
    predict pngStub jpegStub none pngFile.buffer = .error processingErrorMsg ∧
    handleRequest pngStub jpegStub none (some pngFile) =
      ⟨500, "fail", "Terjadi kesalahan dalam melakukan prediksi",
        some processingErrorMsg, none⟩ ∧
    (handleRequest pngStub jpegStub none (some pngFile)).statusCode ≠ 503 :=
  C9_request_before_model_ready pngStub jpegStub pngFile (by decide)

/-- Claim C7: every upload rejected by validation — MIME type not starting
with `image/`, lower-cased filename extension not one of `.jpg`, `.jpeg`,
`.png`, or size above 1,000,000 bytes — yields HTTP 400 with status `fail`
and the triggering validation error message, delivered through the generic
error-handling middleware. -/
theorem C7_validation_rejection
    (pngDecode jpegDecode : Buffer → Except String DecodedRaw)
    (loadedModel : Option Model) (f : UploadFile)
    (h : jsStartsWith f.mimetype "image/" = false ∨
      jsToLower (extname f.originalname) ∉ [".jpg", ".jpeg", ".png"] ∨
      f.size > 1000000) :
    ∃ e, uploadSingle (some f) = .error e ∧
      handleRequest pngDecode jpegDecode loadedModel (some f) =
        errorMiddleware e ∧
      errorMiddleware e = ⟨400, "fail", e, none, none⟩ ∧
      (e = "Only image files are allowed!" ∨
        e = "Only JPG, JPEG, and PNG files are allowed!" ∨
        e = "File too large") := by
  cases h1 : jsStartsWith f.mimetype "image/" with
  | false =>
      refine ⟨"Only image files are allowed!", ?_, ?_, rfl, Or.inl rfl⟩
      · simp [uploadSingle, fileFilter, h1]
      · simp [handleRequest, uploadSingle, fileFilter, h1, errorMiddleware]
  | true =>
      by_cases h2 : jsToLower (extname f.originalname) ∈ [".jpg", ".jpeg", ".png"]
      · have h3 : f.size > 1000000 := by
          rcases h with h | h | h
          · rw [h1] at h; exact absurd h (by simp)
          · exact absurd h2 h
          · exact h
        refine ⟨"File too large", ?_, ?_, rfl, Or.inr (Or.inr rfl)⟩
        · simp [uploadSingle, fileFilter, h1, h2, h3]
        · simp [handleRequest, uploadSingle, fileFilter, h1, h2, h3,
            errorMiddleware]
      · refine ⟨"Only JPG, JPEG, and PNG files are allowed!", ?_, ?_, rfl,
          Or.inr (Or.inl rfl)⟩
        · simp [uploadSingle, fileFilter, h1, h2]
        · simp [handleRequest, uploadSingle, fileFilter, h1, h2,
            errorMiddleware]

/-- Witness for C7 at a `text/plain` upload. -/
theorem C7_validation_rejection_witness :
    ∃ e, uploadSingle (some txtFile) = .error e ∧
      handleRequest pngStub jpegStub none (some txtFile) = errorMiddleware e ∧
      errorMiddleware e = ⟨400, "fail", e, none, none⟩ ∧
      (e = "Only image files are allowed!" ∨
        e = "Only JPG, JPEG, and PNG files are allowed!" ∨
        e = "File too large") :=
  C7_validation_rejection pngStub jpegStub none txtFile (Or.inl (by decide))

/-- Claim C5: the decoder reads the first four bytes of the uploaded
buffer; iff they equal (137, 80, 78, 71) the buffer is decoded on the PNG
path, producing a tensor of shape `[height, width, 4]`; every other buffer
is decoded via the JPEG path. -/
theorem C5_png_signature_dispatch
    (pngDecode jpegDecode : Buffer → Except String DecodedRaw)
    (buf : Buffer) :
    (isPngHeader buf = true ↔ buf.take 4 = [137, 80, 78, 71]) ∧
    (buf.take 4 = [137, 80, 78, 71] →
      decodeImage pngDecode jpegDecode buf = decodePngBranch pngDecode buf ∧
      ∀ p, pngDecode buf = .ok p → p.data.length = p.height * p.width * 4 →
        decodeImage pngDecode jpegDecode buf =
          .ok (tensor3dOfList p.data p.height p.width 4) ∧
        (tensor3dOfList p.data p.height p.width 4).height = p.height ∧
        (tensor3dOfList p.data p.height p.width 4).width = p.width ∧
        (tensor3dOfList p.data p.height p.width 4).channels = 4) ∧
    (¬ buf.take 4 = [137, 80, 78, 71] →
      decodeImage pngDecode jpegDecode buf = decodeJpegBranch jpegDecode buf) := by
  have key : isPngHeader buf = true ↔ buf.take 4 = [137, 80, 78, 71] := by
    rcases buf with _ | ⟨b0, _ | ⟨b1, _ | ⟨b2, _ | ⟨b3, rest⟩⟩⟩⟩ <;>
      simp [isPngHeader, jsIndex, and_assoc]
  refine ⟨key, fun hsig => ⟨?_, ?_⟩, fun hnot => ?_⟩
  · simp [decodeImage, key.mpr hsig]
  · intro p hp hlen
    refine ⟨?_, rfl, rfl, rfl⟩
    simp [decodeImage, key.mpr hsig, decodePngBranch, hp, hlen]
  · have hf : isPngHeader buf = false := by
      rcases Bool.eq_false_or_eq_true (isPngHeader buf) with hh | hh
      · exact absurd (key.mp hh) hnot
      · exact hh
    simp [decodeImage, hf]

/-- Witness for C5 at a buffer equal to the PNG signature. -/
theorem C5_png_signature_dispatch_witness :
    decodeImage pngStub jpegStub pngSigBuf =
      .ok (tensor3dOfList pngDemo.data pngDemo.height pngDemo.width 4) ∧
    (tensor3dOfList pngDemo.data pngDemo.height pngDemo.width 4).channels = 4 :=
  ⟨((C5_png_signature_dispatch pngStub jpegStub pngSigBuf).2.1 (by decide)).2
      pngDemo rfl (by decide) |>.1,
    ((C5_png_signature_dispatch pngStub jpegStub pngSigBuf).2.1 (by decide)).2
      pngDemo rfl (by decide) |>.2.2.2⟩

/-- Claim C6 counterexample: at `totalSamples = 10`, `width = height = 2`,
the source's JavaScript division computes `10 / 4 = 5/2`, while integer
division yields `2`; the two disagree, and the computed value equals no
integer — so the channel count is not computed by integer division. -/
theorem C6_not_integer_division :
    jpegChannelCount 10 2 2 = 5 / 2 ∧
    jpegChannelCountSpec 10 2 2 = 2 ∧
    jpegChannelCount 10 2 2 ≠ (jpegChannelCountSpec 10 2 2 : ℚ) ∧
    ∀ k : ℕ, jpegChannelCount 10 2 2 ≠ (k : ℚ) := by
  have hint : ∀ k : ℕ, jpegChannelCount 10 2 2 ≠ (k : ℚ) := by
    intro k h
    rw [jpegChannelCount] at h
    have h2 : (10 : ℚ) = 4 * k := by push_cast at h; linarith
    have h3 : (10 : ℕ) = 4 * k := by exact_mod_cast h2
    omega
  refine ⟨by norm_num [jpegChannelCount], by decide, ?_, hint⟩
  have hspec : jpegChannelCountSpec 10 2 2 = 2 := by decide
  rw [hspec]
  exact hint 2

/-- Claim C6 amended: the JPEG channel count is computed by exact (real)
division `totalSamples / (width*height)`, not integer division; whenever
the sample count is the exact multiple `width*height*c` with nonzero
`width*height`, it equals the integer `c` — 3 (RGB) or 4 (RGBA) depending
on the source encoding — and the constructed tensor's channel dimension is
that `c`. -/
theorem C6_channel_count_exact_division
    (jpegDecode : Buffer → Except String DecodedRaw) (buf : Buffer)
    (j : DecodedRaw) (c : Nat) (hj : jpegDecode buf = .ok j)
    (hlen : j.data.length = j.width * j.height * c)
    (hpos : 0 < j.width * j.height) :
    jpegChannelCount j.data.length j.width j.height = (c : ℚ) ∧
    decodeJpegBranch jpegDecode buf =
      .ok (tensor3dOfList j.data j.height j.width c) ∧
    (tensor3dOfList j.data j.height j.width c).channels = c := by
  have hne : ((j.width : ℚ) * (j.height : ℚ)) ≠ 0 := by
    have hcast : ((j.width * j.height : ℕ) : ℚ) ≠ 0 :=
      Nat.cast_ne_zero.mpr (Nat.pos_iff_ne_zero.mp hpos)
    push_cast at hcast
    exact hcast
  have hq : jpegChannelCount j.data.length j.width j.height = (c : ℚ) := by
    rw [jpegChannelCount, hlen]
    push_cast
    exact mul_div_cancel_left₀ _ hne
  have hdiv : j.data.length / (j.width * j.height) = c := by
    rw [hlen]
    exact Nat.mul_div_cancel_left c hpos
  have hdvd : (j.width * j.height) ∣ j.data.length := ⟨c, hlen⟩
  refine ⟨hq, ?_, rfl⟩
  simp [decodeJpegBranch, hj, hpos, hdvd, hdiv]

/-- Witness for the amended C6 at the 1×1 RGB stub decode. -/
theorem C6_channel_count_exact_division_witness :
    jpegChannelCount jpegDemo.data.length jpegDemo.width jpegDemo.height =
      ((3 : ℕ) : ℚ) ∧
    decodeJpegBranch jpegStub [0] =
      .ok (tensor3dOfList jpegDemo.data jpegDemo.height jpegDemo.width 3) ∧
    (tensor3dOfList jpegDemo.data jpegDemo.height jpegDemo.width 3).channels = 3 :=
  C6_channel_count_exact_division jpegStub [0] jpegDemo 3 rfl (by decide)
    (by decide)

/-- Linear interpolation of two values in `[lo, hi]` with a weight in
`[0, 1]` stays in `[lo, hi]`. -/
theorem lerp_mem_of_mem {lo hi a b u : ℚ} (h0 : 0 ≤ u) (h1 : u ≤ 1)
    (ha1 : lo ≤ a) (ha2 : a ≤ hi) (hb1 : lo ≤ b) (hb2 : b ≤ hi) :
    lo ≤ lerp a b u ∧ lerp a b u ≤ hi := by
  unfold lerp
  constructor
  · nlinarith [mul_nonneg (sub_nonneg.mpr hb1) h0,
      mul_nonneg (sub_nonneg.mpr ha1) (sub_nonneg.mpr h1)]
  · nlinarith [mul_nonneg (sub_nonneg.mpr hb2) h0,
      mul_nonneg (sub_nonneg.mpr ha2) (sub_nonneg.mpr h1)]

/-- For a nonnegative rational, the offset to the floor index is in
`[0, 1]`. -/
theorem sub_lowIdx_mem (q : ℚ) (hq : 0 ≤ q) :
    0 ≤ q - (lowIdx q : ℚ) ∧ q - (lowIdx q : ℚ) ≤ 1 := by
  have h0 : (0 : ℤ) ≤ ⌊q⌋ := Int.floor_nonneg.mpr hq
  have hc : ((lowIdx q : ℕ) : ℚ) = ((⌊q⌋ : ℤ) : ℚ) := by
    rw [lowIdx]
    exact_mod_cast congrArg (fun z : ℤ => (z : ℚ)) (Int.toNat_of_nonneg h0)
  rw [hc]
  constructor
  · have := Int.floor_le q
    linarith
  · have := Int.sub_one_lt_floor q
    linarith

/-- Source coordinates are nonnegative. -/
theorem srcCoord_nonneg (outSize inSize i : Nat) :
    0 ≤ srcCoord outSize inSize i := by
  rw [srcCoord]
  positivity

/-- A bilinear sample of data lying in `[lo, hi]` stays in `[lo, hi]`. -/
theorem bilinearAt_mem (t : Tensor3) {lo hi : ℚ} (srcY srcX : ℚ) (c : Nat)
    (hY : 0 ≤ srcY) (hX : 0 ≤ srcX)
    (hb : ∀ y x k, lo ≤ t.data y x k ∧ t.data y x k ≤ hi) :
    lo ≤ bilinearAt t srcY srcX c ∧ bilinearAt t srcY srcX c ≤ hi := by
  have hdy := sub_lowIdx_mem srcY hY
  have hdx := sub_lowIdx_mem srcX hX
  have htop := lerp_mem_of_mem hdx.1 hdx.2
    (hb (lowIdx srcY) (lowIdx srcX) c).1
    (hb (lowIdx srcY) (lowIdx srcX) c).2
    (hb (lowIdx srcY) (highIdx (t.width - 1) srcX) c).1
    (hb (lowIdx srcY) (highIdx (t.width - 1) srcX) c).2
  have hbot := lerp_mem_of_mem hdx.1 hdx.2
    (hb (highIdx (t.height - 1) srcY) (lowIdx srcX) c).1
    (hb (highIdx (t.height - 1) srcY) (lowIdx srcX) c).2
    (hb (highIdx (t.height - 1) srcY) (highIdx (t.width - 1) srcX) c).1
    (hb (highIdx (t.height - 1) srcY) (highIdx (t.width - 1) srcX) c).2
  unfold bilinearAt
  exact lerp_mem_of_mem hdy.1 hdy.2 htop.1 htop.2 hbot.1 hbot.2

/-- Bilinear resizing keeps samples within the input data's range. -/
theorem resizeBilinear_mem (t : Tensor3) {lo hi : ℚ} (outH outW : Nat)
    (hb : ∀ y x k, lo ≤ t.data y x k ∧ t.data y x k ≤ hi) :
    ∀ y x k, lo ≤ (resizeBilinear t outH outW).data y x k ∧
      (resizeBilinear t outH outW).data y x k ≤ hi := by
  intro y x k
  show lo ≤ bilinearAt t (srcCoord outH t.height y) (srcCoord outW t.width x) k ∧
    bilinearAt t (srcCoord outH t.height y) (srcCoord outW t.width x) k ≤ hi
  exact bilinearAt_mem t _ _ k (srcCoord_nonneg _ _ _) (srcCoord_nonneg _ _ _) hb

/-- Claim C4: the preprocessor slices a 4-channel tensor to its first 3
channels before any resize, resizes the spatial dimensions to exactly
224×224 with bilinear interpolation, adds a leading batch dimension of
size 1, and converts to float dividing by 255 — so every 8-bit input
(samples in `[0, 255]`) yields values in `[0, 1]`. -/
theorem C4_preprocess_pipeline (t : Tensor3)
    (hb : ∀ y x k, 0 ≤ t.data y x k ∧ t.data y x k ≤ 255) :
    preprocess t = toFloatDiv255 (expandDims0
      (resizeBilinear (if t.channels = 4 then tfSlice3 t else t) 224 224)) ∧
    (tfSlice3 t).channels = 3 ∧
    (∀ y x k, (tfSlice3 t).data y x k = t.data y x k) ∧
    (preprocess t).batch = 1 ∧
    (preprocess t).height = 224 ∧
    (preprocess t).width = 224 ∧
    (t.channels = 4 → (preprocess t).channels = 3) ∧
    ∀ b y x k, 0 ≤ (preprocess t).data b y x k ∧
      (preprocess t).data b y x k ≤ 1 := by
  have hb1 : ∀ y x k,
      0 ≤ (if t.channels = 4 then tfSlice3 t else t).data y x k ∧
      (if t.channels = 4 then tfSlice3 t else t).data y x k ≤ 255 := by
    by_cases h4 : t.channels = 4
    · rw [if_pos h4]
      exact hb
    · rw [if_neg h4]
      exact hb
  refine ⟨rfl, rfl, fun _ _ _ => rfl, rfl, rfl, rfl, ?_, ?_⟩
  · intro h4
    show (resizeBilinear (if t.channels = 4 then tfSlice3 t else t)
      224 224).channels = 3
    rw [if_pos h4]
    rfl
  · intro b y x k
    have h := resizeBilinear_mem (if t.channels = 4 then tfSlice3 t else t)
      224 224 hb1 y x k
    constructor
    · show 0 ≤ (resizeBilinear (if t.channels = 4 then tfSlice3 t else t)
        224 224).data y x k / 255
      exact div_nonneg h.1 (by norm_num)
    · show (resizeBilinear (if t.channels = 4 then tfSlice3 t else t)
        224 224).data y x k / 255 ≤ 1
      rw [div_le_one (by norm_num)]
      exact h.2

/-- Witness for C4 at the 2×2 constant RGBA tensor with samples 100. -/
theorem C4_preprocess_pipeline_witness :
    (preprocess constTensor).batch = 1 ∧
    (preprocess constTensor).height = 224 ∧
    (preprocess constTensor).width = 224 ∧
    (preprocess constTensor).channels = 3 ∧
    (0 ≤ (preprocess constTensor).data 0 0 0 0 ∧
      (preprocess constTensor).data 0 0 0 0 ≤ 1) :=
  have h := C4_preprocess_pipeline constTensor
    (fun _ _ _ => const100_in_byte_range)
  ⟨h.2.2.2.1, h.2.2.2.2.1, h.2.2.2.2.2.1, h.2.2.2.2.2.2.1 rfl,
    h.2.2.2.2.2.2.2 0 0 0 0⟩

end MlCloud
